import Mathlib

/-!
Shallow embedding of the action-resolution and game-lifecycle logic of
`src/lutris/gui/application.py` (class `Application`).

Conventions of the embedding:
* Python `None`-able values become `Option`; Python truthiness of strings,
  option values and numeric ids is made explicit through `pyTruthy*` helpers
  (`None`, `""`, `0` and empty collections are falsy).
* External collaborators (URL parsing in `lutris.api`, the games database,
  HTTP download, dialogs, the service catalog, installer discovery) are
  parameters of the embedding, gathered in an `Env` structure: the embedded
  functions are quantified over every possible behaviour of those
  collaborators.
* Side effects that the specification talks about (database fetches, window
  presentation, warnings, signal emissions) are recorded in an explicit
  event trace, in the order the corresponding statements execute in the
  Python source.
-/

/-- Python truthiness of an optional string: `None` and `""` are falsy. -/
def pyTruthyStr : Option String → Bool
  | none => false
  | some s => s ≠ ""

/-- Python truthiness of an optional integer: `None` and `0` are falsy. -/
def pyTruthyNat : Option Nat → Bool
  | none => false
  | some n => n ≠ 0

/-! ## Game lifecycle registry (`on_game_start`, `on_game_stop`)

`Application.running_games` is a `Gio.ListStore`; games are identified by
`str(game.id)` (see `get_running_game_ids`). The store is modelled as the
list of those string identities in insertion order. -/

/-- State touched by the lifecycle callbacks: the running-games store and
the visibility of the main launcher window. -/
structure LifecycleState where
  running_games : List String
  window_visible : Bool
deriving Repr, DecidableEq

/-- Embedding of `Application.on_game_start`: appends the game to
`running_games` unconditionally and, when the `hide_client_on_game_start`
setting is `"True"`, hides the launcher window. -/
def on_game_start (hide_on_start : Bool) (s : LifecycleState) (gid : String) :
    LifecycleState :=
  ⟨s.running_games ++ [gid], if hide_on_start then false else s.window_visible⟩

/-- Observable steps of `on_game_stop`, in program order. -/
inductive StopEvent where
  | removed
  | warned
  | emittedStop
  | shownWindow
  | quitApp
deriving Repr, DecidableEq

/-- Embedding of `Application.get_running_game_ids`. -/
def get_running_game_ids (s : LifecycleState) : List String :=
  s.running_games

/-- Embedding of `Application.on_game_stop`: removes the first entry with the
game's identity when present (`ids.index` finds the first occurrence),
otherwise logs a warning; then emits `game-stopped`; then either re-shows the
launcher window (hide-on-start configuration) or quits when the window is
hidden and no game is left running. -/
def on_game_stop (hide_on_start : Bool) (s : LifecycleState) (gid : String) :
    LifecycleState × List StopEvent :=
  let ids := get_running_game_ids s
  let step1 : List String × List StopEvent :=
    if gid ∈ ids then
      (ids.eraseIdx (ids.indexOf gid), [StopEvent.removed])
    else
      (ids, [StopEvent.warned])
  let running := step1.1
  let events := step1.2 ++ [StopEvent.emittedStop]
  if hide_on_start then
    (⟨running, true⟩, events ++ [StopEvent.shownWindow])
  else if !s.window_visible ∧ running.length = 0 then
    (⟨running, s.window_visible⟩, events ++ [StopEvent.quitApp])
  else
    (⟨running, s.window_visible⟩, events)

/-! ## JSON game list rendering (`print_game_json`) -/

/-- Left-pad the decimal rendering of `n` with zeros up to width 2,
Python's `"%02d"` for a non-negative value. -/
def pad2 (n : Nat) : String :=
  if n < 10 then "0" ++ toString n else toString n

/-- Left-pad the decimal rendering of `n` with zeros up to width 6,
Python's `"%06d"` for a non-negative value. -/
def pad6 (n : Nat) : String :=
  let s := toString n
  String.mk (List.replicate (6 - s.length) '0') ++ s

/-- Rendering of `str(datetime.timedelta(hours=h))`. The duration is held
exactly as a rational number of hours; `timedelta` normalises it to
`(days, seconds, microseconds)` with floor division (Python's `divmod`) and
prints `[D day(s), ]H:MM:SS[.ffffff]`. The total microsecond count is
`⌊hours * 3600000000⌋`, computed on the numerator and denominator directly;
sub-microsecond remainders are floored, which agrees with Python on every
input whose microsecond count is exact. -/
def str_timedelta (hours : ℚ) : String :=
  let totalMicro : Int := Int.fdiv (hours.num * 3600000000) (Int.ofNat hours.den)
  let micro : Int := Int.fmod totalMicro 1000000
  let totalSeconds : Int := Int.fdiv totalMicro 1000000
  let days : Int := Int.fdiv totalSeconds 86400
  let secOfDay : Int := Int.fmod totalSeconds 86400
  let ss : Int := Int.fmod secOfDay 60
  let minTotal : Int := Int.fdiv secOfDay 60
  let mm : Int := Int.fmod minTotal 60
  let hh : Int := Int.fdiv minTotal 60
  let base := toString hh ++ ":" ++ pad2 mm.toNat ++ ":" ++ pad2 ss.toNat
  let withDays :=
    if days ≠ 0 then
      toString days ++ (if days = 1 ∨ days = -1 then " day, " else " days, ") ++ base
    else base
  if micro ≠ 0 then withDays ++ "." ++ pad6 micro.toNat else withDays

/-- A row of the games database as consumed by `print_game_json`:
`playtime` is a floating-point number of hours (held exactly as a rational)
and `lastplayed` a Unix timestamp; either may be missing. -/
structure DBGameRow where
  id : Nat
  slug : String
  name : String
  runner : Option String
  platform : Option String
  year : Option Nat
  directory : Option String
  hidden : Option Nat
  playtime : Option ℚ
  lastplayed : Option Int
deriving Repr, DecidableEq

/-- One object of the JSON array produced by `print_game_json`:
`playtime` and `lastplayed` are each a string or `null`. -/
structure JsonGame where
  id : Nat
  slug : String
  name : String
  runner : Option String
  platform : Option String
  year : Option Nat
  directory : Option String
  hidden : Bool
  playtime : Option String
  lastplayed : Option String
deriving Repr, DecidableEq

/-- Embedding of the per-game dictionary built by
`Application.print_game_json`. `fmt_timestamp` stands for
`str(datetime.fromtimestamp(_))`, whose output depends on the local
timezone and is therefore kept abstract. `x or None` on a string/number
yields `None` when the value is falsy; `playtime`/`lastplayed` are rendered
only when truthy, else `null`. -/
def print_game_json_entry (fmt_timestamp : Int → String) (g : DBGameRow) :
    JsonGame :=
  ⟨g.id, g.slug, g.name, g.runner,
    (if pyTruthyStr g.platform then g.platform else none),
    (match g.year with
      | some y => if y ≠ 0 then some y else none
      | none => none),
    (if pyTruthyStr g.directory then g.directory else none),
    (match g.hidden with
      | some n => n ≠ 0
      | none => false),
    (match g.playtime with
      | some q => if q ≠ 0 then some (str_timedelta q) else none
      | none => none),
    (match g.lastplayed with
      | some t => if t ≠ 0 then some (fmt_timestamp t) else none
      | none => none)⟩

/-! ## Window singleton registry (`get_window_key`, `show_window`,
`on_app_window_destroyed`)

`Application.app_windows` maps a key string to a live window instance.
Window instances are modelled as handles drawn from a counter
`next_handle`; constructing an instance appends its handle to
`constructed`, so constructor side effects run once per element of that
list. The association list keeps at most one entry per key because
insertion only happens when lookup failed. -/

/-- The keyword arguments `show_window` derives its key from. `runner`
holds the runner's `name`, `installers` the installers' `game_slug`
fields, `game` the game's `id`. -/
structure WindowKwargs where
  appid : Option String
  runner : Option String
  installers : List String
  game : Option Nat
deriving Repr, DecidableEq

/-- Embedding of `Application.get_window_key`: explicit app id (when
truthy), else runner name, else first installer's game slug, else the
game's id, else a stable string form of all arguments (`str(kwargs)`,
rendered here through `Repr`). -/
def get_window_key (k : WindowKwargs) : String :=
  if pyTruthyStr k.appid then k.appid.getD ""
  else
    match k.runner with
    | some rname => rname
    | none =>
      match k.installers with
      | slug :: _ => slug
      | [] =>
        match k.game with
        | some gid => toString gid
        | none => reprStr k

/-- Registry state: the key-to-handle map, the next fresh handle, and the
handles constructed so far (in construction order). -/
structure WinState where
  app_windows : List (String × Nat)
  next_handle : Nat
  constructed : List Nat
deriving Repr, DecidableEq

/-- Embedding of `Application.show_window`. The key is
`window_class.__name__ + get_window_key(**kwargs)`. A live entry is
re-presented and returned unchanged; otherwise a fresh instance is
constructed (both the `Gtk.Dialog` and the plain-window branch construct
exactly one instance), registered under the key with a destruction
listener carrying `get_window_key(**kwargs)`, shown, and returned. -/
def show_window (st : WinState) (window_class : String) (k : WindowKwargs) :
    WinState × Nat :=
  match st.app_windows.lookup (window_class ++ get_window_key k) with
  | some h => (st, h)
  | none =>
    (⟨(window_class ++ get_window_key k, st.next_handle) :: st.app_windows,
        st.next_handle + 1, st.constructed ++ [st.next_handle]⟩,
      st.next_handle)

/-- Embedding of `Application.on_app_window_destroyed`: rebuilds the key
from the destroyed instance's class name and the suffix stored at
connection time, deletes the entry, and merely warns (second component
`true`) when the key is already absent. -/
def on_app_window_destroyed (st : WinState) (window_class : String)
    (key : String) : WinState × Bool :=
  if (st.app_windows.lookup (window_class ++ key)).isSome then
    (⟨st.app_windows.filter (fun p => !(p.1 == window_class ++ key)),
        st.next_handle, st.constructed⟩, false)
  else
    (st, true)

/-! ## Command-line handling (`do_command_line`, `get_lutris_action`,
`do_activate`)

The whole resolution pipeline of `Application.do_command_line` is embedded
as a pure function from the parsed options, the external collaborators'
behaviour (`Env`) and the incoming `run_in_background` flag to an outcome,
an event trace and the final flag. -/

/-- Result of `lutris.api.parse_installer_url` (and of
`get_lutris_action`): the five fields of the installer-info dictionary. -/
structure InstallerInfo where
  game_slug : Option String
  revision : Option String
  action : Option String
  service : Option String
  appid : Option String
deriving Repr, DecidableEq

/-- A row returned by `games_db.get_game_by_field`, restricted to the
fields `do_command_line` reads. A missing row (Python's falsy `{}`/`None`)
is `none` at the `Option DBGame` level. -/
structure DBGame where
  id : Option Nat
  name : String
  installed : Bool
deriving Repr, DecidableEq

/-- Python truthiness of `db_game and db_game["id"]`. -/
def pyTruthyGameId : Option DBGame → Bool
  | none => false
  | some g => pyTruthyNat g.id

/-- Observable side effects of one `do_command_line` run, in program
order. `fetchGame value field` records a `games_db.get_game_by_field`
call; `activate presented` records the `self.activate()` call and whether
the resulting activation presented the main window. -/
inductive Event where
  | getGames
  | fetchGame (value field : String)
  | activate (presented : Bool)
  | showInstallerWindow
  | launchGame (id : Nat)
  | warnNoGame
  | shutdown
  | serviceInstall (service : String)
deriving Repr, DecidableEq

/-- Whether an event is a game-identity database fetch. -/
def Event.isFetch : Event → Bool
  | Event.fetchGame _ _ => true
  | _ => false

/-- How one `do_command_line` invocation ended. `completed a` means the
final dispatch section ran with `action = a`; `serviceHandled a` means a
service-catalog game was found and installation was delegated to the
service while `action` held `a`. The remaining constructors are the early
returns, in source order. -/
inductive Outcome where
  | exitVersion
  | exitListGames
  | exitListSteamGames
  | exitListSteamFolders
  | exitExec
  | exitSubmitIssue
  | badUri
  | downloadFailed
  | missingFile
  | writeScriptNoGame
  | wroteScript
  | serviceHandled (action : Option String)
  | completed (action : Option String)
deriving Repr, DecidableEq

/-- The process exit code of each outcome (`return 1` on resolution
failure, `return 0` otherwise). -/
def Outcome.exitCode : Outcome → Nat
  | Outcome.badUri => 1
  | Outcome.downloadFailed => 1
  | Outcome.missingFile => 1
  | Outcome.writeScriptNoGame => 1
  | _ => 0

/-- The parsed command-line options (GLib option dictionary plus the
positional remainder). String-valued options are `some` exactly when
`options.contains` holds; `url` is the first positional argument when the
remainder array is non-empty. -/
structure Options where
  version : Bool
  debug : Bool
  install : Option String
  output_script : Option String
  exec : Option String
  list_games : Bool
  installed : Bool
  json : Bool
  list_steam_games : Bool
  list_steam_folders : Bool
  reinstall : Bool
  submit_issue : Bool
  url : Option String

/-- Behaviour of the external collaborators consulted during one
invocation: the URI grammar (`parse_installer_url`, `none` models the
`False` return for a malformed URI), the games database, the HTTP download
step (`none` models `HTTPError`; `some path` the downloaded file's local
path), path resolution and existence, the install-or-play dialog's answer,
the service catalog, installer discovery (whether any installer was
found), and the main window's visibility at dispatch time. -/
structure Env where
  parse_installer_url : String → Option InstallerInfo
  get_game_by_field : String → String → Option DBGame
  download : String → Option String
  abspath : String → String
  isfile : String → Bool
  dialog_confirmed : Bool
  dialog_action : String
  service_get_game : String → Option String → Option DBGame
  get_installers : Option String → Option String → Option String → Bool
  window_visible : Bool

/-- Embedding of `Application.get_lutris_action`: with no positional URI
the installer info has all five fields `None`; otherwise the URI is parsed
and a parse failure (`False`) raises `ValueError`, modelled as `none`. -/
def get_lutris_action (parse : String → Option InstallerInfo)
    (url : Option String) : Option InstallerInfo :=
  match url with
  | none => some ⟨none, none, none, none, none⟩
  | some u => parse u

/-- Embedding of `Application.do_activate`: presents the main window
unless `run_in_background` is set, in which case the flag is reset so
that future activations present again. Returns (presented, new flag). -/
def do_activate (run_in_background : Bool) : Bool × Bool :=
  if !run_in_background then (true, run_in_background) else (false, false)

/-- First half of the `--install` file handling block: a remote URL is
downloaded (an `HTTPError` exits with code 1), a local path is made
absolute. -/
def resolve_install_source (env : Env) (f : String) : Except Outcome String :=
  if f.startsWith "http:" || f.startsWith "https:" then
    match env.download f with
    | none => Except.error Outcome.downloadFailed
    | some path => Except.ok path
  else
    Except.ok (env.abspath f)

/-- Second half of the `--install` block: a missing resulting file exits
with code 1, otherwise `installer_file` is set and `action` becomes
`"install"`. -/
def resolve_install_file (env : Env) (installOpt : Option String)
    (action : Option String) :
    Except Outcome (Option String × Option String) :=
  match installOpt with
  | none => Except.ok (none, action)
  | some f =>
    match resolve_install_source env f with
    | Except.error e => Except.error e
    | Except.ok path =>
      if env.isfile path then Except.ok (some path, some "install")
      else Except.error Outcome.missingFile

/-- Result of the `db_game` lookup block: the row found, whether the block
assigned `run_in_background = True`, and the fetches it performed. -/
structure DbLookupResult where
  db_game : Option DBGame
  rib_set : Bool
  events : List Event
deriving Repr, DecidableEq

/-- Embedding of the `db_game` resolution block of `do_command_line`
(guarded by `if game_slug and not service:`): `rungameid` fetches by id
only, `rungame` by slug only, `install` by slug then installer slug, any
other action by id, else slug, else installer slug — Python's `or`
evaluates the next fetch only when the previous one was falsy. The three
named actions also set `run_in_background`. -/
def lookup_db_game (fetch : String → String → Option DBGame)
    (game_slug service : Option String) (action : Option String) :
    DbLookupResult :=
  if pyTruthyStr game_slug && !pyTruthyStr service then
    if action = some "rungameid" then
      ⟨fetch (game_slug.getD "") "id", true,
        [Event.fetchGame (game_slug.getD "") "id"]⟩
    else if action = some "rungame" then
      ⟨fetch (game_slug.getD "") "slug", true,
        [Event.fetchGame (game_slug.getD "") "slug"]⟩
    else if action = some "install" then
      match fetch (game_slug.getD "") "slug" with
      | some g => ⟨some g, true, [Event.fetchGame (game_slug.getD "") "slug"]⟩
      | none =>
        ⟨fetch (game_slug.getD "") "installer_slug", true,
          [Event.fetchGame (game_slug.getD "") "slug",
            Event.fetchGame (game_slug.getD "") "installer_slug"]⟩
    else
      match fetch (game_slug.getD "") "id" with
      | some g => ⟨some g, false, [Event.fetchGame (game_slug.getD "") "id"]⟩
      | none =>
        match fetch (game_slug.getD "") "slug" with
        | some g =>
          ⟨some g, false,
            [Event.fetchGame (game_slug.getD "") "id",
              Event.fetchGame (game_slug.getD "") "slug"]⟩
        | none =>
          ⟨fetch (game_slug.getD "") "installer_slug", false,
            [Event.fetchGame (game_slug.getD "") "id",
              Event.fetchGame (game_slug.getD "") "slug",
              Event.fetchGame (game_slug.getD "") "installer_slug"]⟩
  else ⟨none, false, []⟩

/-- Embedding of the `if not action:` block: when the action is still
falsy, a found installed game opens the install-or-play dialog (an
unconfirmed dialog yields no action), otherwise a present slug, installer
file or service defaults the action to `"install"`. -/
def resolve_unset_action (env : Env) (action : Option String)
    (db_game : Option DBGame) (game_slug installer_file service : Option String) :
    Option String :=
  if pyTruthyStr action then action
  else if (db_game.map DBGame.installed).getD false then
    if !env.dialog_confirmed then none
    else if env.dialog_action = "play" then some "rungame"
    else if env.dialog_action = "install" then some "install"
    else action
  else if pyTruthyStr game_slug || pyTruthyStr installer_file
      || pyTruthyStr service then some "install"
  else action

/-- Embedding of the final dispatch section (`if action == "install": ...
elif action in ("rungame", "rungameid"): ...`). -/
def dispatch_action (env : Env) (action : Option String)
    (db_game : Option DBGame) (game_slug installer_file revision : Option String) :
    Outcome × List Event :=
  if action = some "install" then
    if env.get_installers game_slug installer_file revision then
      (Outcome.completed action, [Event.showInstallerWindow])
    else
      (Outcome.completed action, [])
  else if action = some "rungame" || action = some "rungameid" then
    if !pyTruthyGameId db_game then
      if !env.window_visible then
        (Outcome.completed action, [Event.warnNoGame, Event.shutdown])
      else
        (Outcome.completed action, [Event.warnNoGame])
    else
      (Outcome.completed action,
        [Event.launchGame ((db_game.bind DBGame.id).getD 0)])
  else
    (Outcome.completed action, [])

/-- Result of one embedded `do_command_line` invocation. -/
structure CmdResult where
  outcome : Outcome
  events : List Event
  run_in_background : Bool
deriving Repr, DecidableEq

/-- Middle and tail of `do_command_line`, from the `db_game` lookup block
onwards, with the installer info, the resolved `installer_file` and the
action after the `--output-script`/`--install` assignments already at
hand. -/
def command_line_after_files (env : Env) (opts : Options) (rib0 : Bool)
    (info : InstallerInfo) (installer_file action2 : Option String) :
    CmdResult :=
  let game_slug := info.game_slug
  let service := info.service
  let lk := lookup_db_game env.get_game_by_field game_slug service action2
  let rib1 := if lk.rib_set then true else rib0
  let action3 := if opts.reinstall then some "install" else action2
  if action3 = some "write-script" then
    if !pyTruthyGameId lk.db_game then
      ⟨Outcome.writeScriptNoGame, lk.events, rib1⟩
    else
      ⟨Outcome.wroteScript, lk.events, rib1⟩
  else
    let act := do_activate rib1
    let events1 := lk.events ++ [Event.activate act.1]
    let rib2 := act.2
    let action4 :=
      resolve_unset_action env action3 lk.db_game game_slug installer_file
        service
    if pyTruthyStr service then
      match env.service_get_game (service.getD "") info.appid with
      | some _ =>
        ⟨Outcome.serviceHandled action4,
          events1 ++ [Event.serviceInstall (service.getD "")], rib2⟩
      | none =>
        let d :=
          dispatch_action env action4 lk.db_game game_slug installer_file
            info.revision
        ⟨d.1, events1 ++ d.2, rib2⟩
    else
      let d :=
        dispatch_action env action4 lk.db_game game_slug installer_file
          info.revision
      ⟨d.1, events1 ++ d.2, rib2⟩

/-- Body of `do_command_line` past the informational short-circuits: URI
parsing (`ValueError` exits with code 1), the `--output-script` and
`--install` assignments, then `command_line_after_files`. -/
def do_command_line_resolve (env : Env) (opts : Options) (rib0 : Bool) :
    CmdResult :=
  match get_lutris_action env.parse_installer_url opts.url with
  | none => ⟨Outcome.badUri, [], rib0⟩
  | some info =>
    let action1 :=
      if opts.output_script.isSome then some "write-script" else info.action
    match resolve_install_file env opts.install action1 with
    | Except.error e => ⟨e, [], rib0⟩
    | Except.ok (installer_file, action2) =>
      command_line_after_files env opts rib0 info installer_file action2

/-- Embedding of `Application.do_command_line` from the informational
short-circuits to the final dispatch. `rib0` is the value of
`self.run_in_background` when the invocation starts (`False` at
application construction and after any activation). -/
def do_command_line (env : Env) (opts : Options) (rib0 : Bool) : CmdResult :=
  if opts.version then ⟨Outcome.exitVersion, [], rib0⟩
  else if opts.list_games then ⟨Outcome.exitListGames, [Event.getGames], rib0⟩
  else if opts.list_steam_games then ⟨Outcome.exitListSteamGames, [], rib0⟩
  else if opts.list_steam_folders then ⟨Outcome.exitListSteamFolders, [], rib0⟩
  else if opts.exec.isSome then ⟨Outcome.exitExec, [], rib0⟩
  else if opts.submit_issue then ⟨Outcome.exitSubmitIssue, [], rib0⟩
  else do_command_line_resolve env opts rib0

/-- The informational flags that short-circuit `do_command_line` before
any URI parsing or database access. -/
def hasShortCircuitFlag (opts : Options) : Bool :=
  opts.version || opts.list_games || opts.list_steam_games
    || opts.list_steam_folders || opts.exec.isSome || opts.submit_issue

/-! ## Concrete sample inputs used to instantiate the theorems -/

/-- An invocation with no flags and no positional argument. -/
def sampleOpts : Options :=
  ⟨false, false, none, none, none, false, false, false, false, false, false,
    false, none⟩

/-- `lutris --reinstall`. -/
def reinstallOpts : Options :=
  ⟨false, false, none, none, none, false, false, false, false, false, true,
    false, none⟩

/-- `lutris --version`. -/
def versionOpts : Options :=
  ⟨true, false, none, none, none, false, false, false, false, false, false,
    false, none⟩

/-- An invocation whose positional argument is the string `"bogus"`. -/
def bogusUriOpts : Options :=
  ⟨false, false, none, none, none, false, false, false, false, false, false,
    false, some "bogus"⟩

/-- An invocation whose positional argument is
`lutris:rungameid/42`. -/
def rungameidOpts : Options :=
  ⟨false, false, none, none, none, false, false, false, false, false, false,
    false, some "lutris:rungameid/42"⟩

/-- An invocation whose positional argument is
`lutris:install/quake`. -/
def installUriOpts : Options :=
  ⟨false, false, none, none, none, false, false, false, false, false, false,
    false, some "lutris:install/quake"⟩

/-- Collaborators that fail or decline everything: no URI parses, the
database is empty, downloads fail, no file exists, dialogs are dismissed,
the service catalog is empty, no installers are found, the main window is
hidden. -/
def sampleEnv : Env :=
  ⟨fun _ => none, fun _ _ => none, fun _ => none, fun s => s, fun _ => false,
    false, "", fun _ _ => none, fun _ _ _ => false, false⟩

/-- Collaborators for the `rungameid` scenario: the URI
`lutris:rungameid/42` parses to action `rungameid` with slug `42`, and the
database holds game id 42 under numeric id lookup. -/
def rungameidEnv : Env :=
  ⟨fun u =>
      if u = "lutris:rungameid/42" then
        some ⟨some "42", none, some "rungameid", none, none⟩
      else none,
    fun v f => if v = "42" ∧ f = "id" then some ⟨some 7, "g", true⟩ else none,
    fun _ => none, fun s => s, fun _ => false, false, "",
    fun _ _ => none, fun _ _ _ => false, false⟩

/-- An invocation whose positional argument is
`lutris:rungame/quake2`. -/
def rungameOpts : Options :=
  ⟨false, false, none, none, none, false, false, false, false, false, false,
    false, some "lutris:rungame/quake2"⟩

/-- Collaborators for the `rungame` scenario: the URI
`lutris:rungame/quake2` parses to action `rungame` with slug `quake2`,
and the database holds a game under slug lookup. -/
def rungameEnv : Env :=
  ⟨fun u =>
      if u = "lutris:rungame/quake2" then
        some ⟨some "quake2", none, some "rungame", none, none⟩
      else none,
    fun v f =>
      if v = "quake2" ∧ f = "slug" then some ⟨some 9, "g2", true⟩ else none,
    fun _ => none, fun s => s, fun _ => false, false, "",
    fun _ _ => none, fun _ _ _ => false, false⟩

/-- Collaborators for the `install` URI scenario: `lutris:install/quake`
parses to action `install` with slug `quake`; the database is empty. -/
def installEnv : Env :=
  ⟨fun u =>
      if u = "lutris:install/quake" then
        some ⟨some "quake", none, some "install", none, none⟩
      else none,
    fun _ _ => none, fun _ => none, fun s => s, fun _ => false, false, "",
    fun _ _ => none, fun _ _ _ => false, false⟩

/-! ## Supporting lemmas -/

/-- With no informational short-circuit flag, `do_command_line` runs its
resolution body. -/
theorem do_command_line_eq_resolve (env : Env) (opts : Options) (rib0 : Bool)
    (h : hasShortCircuitFlag opts = false) :
    do_command_line env opts rib0 = do_command_line_resolve env opts rib0 := by
  simp only [hasShortCircuitFlag, Bool.or_eq_false_iff] at h
  obtain ⟨⟨⟨⟨⟨h1, h2⟩, h3⟩, h4⟩, h5⟩, h6⟩ := h
  simp [do_command_line, h1, h2, h3, h4, h5, h6]

/-- `resolve_install_file` only fails with the download or missing-file
exit. -/
theorem resolve_install_source_error (env : Env) (f : String) (e : Outcome)
    (h : resolve_install_source env f = Except.error e) :
    e = Outcome.downloadFailed := by
  unfold resolve_install_source at h
  split at h
  · cases hd : env.download f <;> rw [hd] at h <;> simp_all
  · simp at h

/-- The `--install` block only fails with the download or missing-file
exit. -/
theorem resolve_install_file_error_cases (env : Env) (i a : Option String)
    (e : Outcome) (h : resolve_install_file env i a = Except.error e) :
    e = Outcome.downloadFailed ∨ e = Outcome.missingFile := by
  unfold resolve_install_file at h
  rcases i with _ | f
  · simp at h
  · dsimp only at h
    cases hs : resolve_install_source env f with
    | error e' =>
      rw [hs] at h
      simp at h
      exact Or.inl (h ▸ resolve_install_source_error env f e' hs)
    | ok path =>
      rw [hs] at h
      dsimp only at h
      split at h
      · simp at h
      · simp at h
        exact Or.inr h.symm

/-- The final dispatch section always completes with the action it was
given. -/
theorem dispatch_action_fst (env : Env) (a : Option String)
    (db : Option DBGame) (gs f rev : Option String) :
    (dispatch_action env a db gs f rev).1 = Outcome.completed a := by
  unfold dispatch_action
  repeat' split
  all_goals rfl

/-- The dispatch section never records an activation event. -/
theorem dispatch_action_no_activate (env : Env) (a : Option String)
    (db : Option DBGame) (gs f rev : Option String) (b : Bool) :
    Event.activate b ∉ (dispatch_action env a db gs f rev).2 := by
  unfold dispatch_action
  repeat' split
  all_goals simp

/-- Every event recorded by the `db_game` lookup block is a database
fetch. -/
theorem lookup_db_game_events_fetch (fetch : String → String → Option DBGame)
    (gs svc a : Option String) :
    ((lookup_db_game fetch gs svc a).events).all Event.isFetch = true := by
  unfold lookup_db_game
  repeat' split
  all_goals rfl

/-- No event recorded by the `db_game` lookup block is an activation. -/
theorem lookup_db_game_no_activate (fetch : String → String → Option DBGame)
    (gs svc a : Option String) (b : Bool) :
    Event.activate b ∉ (lookup_db_game fetch gs svc a).events := by
  intro hmem
  have hall := lookup_db_game_events_fetch fetch gs svc a
  rw [List.all_eq_true] at hall
  have := hall _ hmem
  simp [Event.isFetch] at this

/-- A still-truthy action is left untouched by the `if not action:`
block. -/
theorem resolve_unset_action_of_truthy (env : Env) (a : Option String)
    (db : Option DBGame) (gs f svc : Option String)
    (h : pyTruthyStr a = true) :
    resolve_unset_action env a db gs f svc = a := by
  unfold resolve_unset_action
  simp [h]

/-- Deleting a key from the window map makes its lookup fail. -/
theorem lookup_filter_key_none (key : String) (l : List (String × Nat)) :
    (l.filter (fun p => !(p.1 == key))).lookup key = none := by
  induction l with
  | nil => rfl
  | cons p t ih =>
    obtain ⟨k, v⟩ := p
    by_cases h : k = key
    · rw [List.filter_cons_of_neg (by simp [h])]
      exact ih
    · rw [List.filter_cons_of_pos (by simp [h])]
      rw [List.lookup]
      have hne : (key == k) = false := by
        simp only [beq_eq_false_iff_ne]
        exact Ne.symm h
      rw [hne]
      exact ih

/-- The `db_game` lookup block sets `run_in_background` for the
`rungameid`, `rungame` and `install` actions whenever it runs. -/
theorem lookup_db_game_rib_set (fetch : String → String → Option DBGame)
    (gs svc a : Option String) (hgs : pyTruthyStr gs = true)
    (hsvc : pyTruthyStr svc = false)
    (ha : a = some "rungameid" ∨ a = some "rungame" ∨ a = some "install") :
    (lookup_db_game fetch gs svc a).rib_set = true := by
  unfold lookup_db_game
  rcases ha with rfl | rfl | rfl
  · simp [hgs, hsvc]
  · simp [hgs, hsvc]
  · simp only [hgs, hsvc, Bool.not_false, Bool.and_self, if_true]
    cases fetch (gs.getD "") "slug" <;> rfl

/-- With a parsed URI and neither `--output-script` nor `--install`, the
resolution body goes straight to `command_line_after_files` with the
parsed action. -/
theorem do_command_line_resolve_no_install (env : Env) (opts : Options)
    (rib0 : Bool) (info : InstallerInfo) (u : String)
    (hu : opts.url = some u)
    (hp : env.parse_installer_url u = some info)
    (hos : opts.output_script = none) (hin : opts.install = none) :
    do_command_line_resolve env opts rib0
      = command_line_after_files env opts rib0 info none info.action := by
  unfold do_command_line_resolve get_lutris_action
  rw [hu]
  dsimp only
  rw [hp]
  dsimp only
  rw [hos, hin]
  dsimp only [resolve_install_file, Option.isSome]
  simp only [Bool.false_eq_true, if_false]

/-- After a lookup that set `run_in_background`, and with neither a
write-script action nor a truthy service, `command_line_after_files`
performs exactly one non-presenting activation and resets the flag. -/
theorem command_line_after_files_activate (env : Env) (opts : Options)
    (info : InstallerInfo) (f a2 : Option String)
    (hns : (if opts.reinstall then some "install" else a2)
      ≠ some "write-script")
    (hsvc : pyTruthyStr info.service = false)
    (hrib : (lookup_db_game env.get_game_by_field info.game_slug info.service
      a2).rib_set = true) :
    ((command_line_after_files env opts false info f a2).events).count
        (Event.activate false) = 1 ∧
    Event.activate true ∉ (command_line_after_files env opts false info f
      a2).events ∧
    (command_line_after_files env opts false info f a2).run_in_background
      = false := by
  have hnoact1 := lookup_db_game_no_activate env.get_game_by_field
    info.game_slug info.service a2 false
  have hnoact2 := lookup_db_game_no_activate env.get_game_by_field
    info.game_slug info.service a2 true
  unfold command_line_after_files
  dsimp only
  rw [hrib, hsvc]
  rw [if_neg hns]
  dsimp only [do_activate]
  simp only [Bool.true_eq_false, if_true, if_false, Bool.not_true,
    Bool.false_eq_true]
  have hd1 := dispatch_action_no_activate env
    (resolve_unset_action env (if opts.reinstall then some "install" else a2)
      (lookup_db_game env.get_game_by_field info.game_slug info.service
        a2).db_game info.game_slug f info.service)
    (lookup_db_game env.get_game_by_field info.game_slug info.service
      a2).db_game info.game_slug f info.revision false
  have hd2 := dispatch_action_no_activate env
    (resolve_unset_action env (if opts.reinstall then some "install" else a2)
      (lookup_db_game env.get_game_by_field info.game_slug info.service
        a2).db_game info.game_slug f info.service)
    (lookup_db_game env.get_game_by_field info.game_slug info.service
      a2).db_game info.game_slug f info.revision true
  refine ⟨?_, ?_, by trivial⟩
  · rw [List.count_append, List.count_append]
    rw [List.count_eq_zero.mpr hnoact1, List.count_eq_zero.mpr hd1]
    simp
  · simp only [List.mem_append, List.mem_singleton]
    rintro ((h | h) | h)
    · exact hnoact2 h
    · simp at h
    · exact hd2 h

/-- Under `--reinstall`, the resolution past the file handling always
carries action `"install"` to its terminal dispatch or service
hand-off. -/
theorem command_line_after_files_reinstall (env : Env) (opts : Options)
    (rib0 : Bool) (info : InstallerInfo) (f a2 : Option String)
    (hre : opts.reinstall = true) :
    (command_line_after_files env opts rib0 info f a2).outcome
      = Outcome.completed (some "install") ∨
    (command_line_after_files env opts rib0 info f a2).outcome
      = Outcome.serviceHandled (some "install") := by
  unfold command_line_after_files
  dsimp only
  rw [hre]
  simp only [if_true]
  rw [if_neg (by decide : ¬ (some "install" : Option String)
    = some "write-script")]
  rw [resolve_unset_action_of_truthy env (some "install") _ _ _ _ (by decide)]
  by_cases hsvc : pyTruthyStr info.service = true
  · rw [if_pos hsvc]
    cases hget : env.service_get_game (info.service.getD "") info.appid with
    | some g => exact Or.inr rfl
    | none => exact Or.inl (dispatch_action_fst env _ _ _ _ _)
  · rw [if_neg hsvc]
    exact Or.inl (dispatch_action_fst env _ _ _ _ _)

/-! ## Claims -/

/-- C2, counterexample: starting the same game identity twice with no
intervening stop leaves the running-games store with two entries of that
identity — its cardinality is 2, not 1, because `on_game_start` appends
unconditionally. -/
theorem c2_counterexample :
    (on_game_start false (on_game_start false ⟨[], true⟩ "7") "7").running_games.count "7" = 2 ∧
    ¬ (on_game_start false (on_game_start false ⟨[], true⟩ "7") "7").running_games.length = 1 := by
  decide

/-- C2, amended: `on_game_start` inserts by unconditional append, so a
second start of the same identity with no intervening stop adds a
duplicate entry and the identity's multiplicity grows by two overall. -/
theorem c2_on_game_start_appends (hide : Bool) (s : LifecycleState)
    (gid : String) :
    (on_game_start hide s gid).running_games = s.running_games ++ [gid] ∧
    (on_game_start hide (on_game_start hide s gid) gid).running_games.count gid
      = s.running_games.count gid + 2 := by
  refine ⟨rfl, ?_⟩
  simp [on_game_start, List.count_append]

/-- C4: stopping a game whose identity is absent from the running-games
store leaves the store unchanged and logs a warning before the
`game-stopped` emission; when the identity is present, the removal
happens before the emission. -/
theorem c4_on_game_stop (hide : Bool) (s : LifecycleState) (gid : String) :
    (gid ∉ s.running_games →
      (on_game_stop hide s gid).1.running_games = s.running_games ∧
      ((on_game_stop hide s gid).2).take 2
        = [StopEvent.warned, StopEvent.emittedStop]) ∧
    (gid ∈ s.running_games →
      ((on_game_stop hide s gid).2).take 2
        = [StopEvent.removed, StopEvent.emittedStop]) := by
  unfold on_game_stop get_running_game_ids
  constructor
  · intro hab
    simp only [hab, if_false]
    repeat' split
    all_goals simp [hab]
  · intro hin
    simp only [hin, if_true]
    repeat' split
    all_goals simp [hin]

/-- C4 witness. -/
theorem c4_witness :
    (on_game_stop false ⟨["9"], true⟩ "7").1.running_games = ["9"] ∧
    ((on_game_stop false ⟨["9"], true⟩ "7").2).take 2
      = [StopEvent.warned, StopEvent.emittedStop] ∧
    ((on_game_stop false ⟨["7"], true⟩ "7").2).take 2
      = [StopEvent.removed, StopEvent.emittedStop] := by
  refine ⟨?_, ?_, ?_⟩
  · exact ((c4_on_game_stop false ⟨["9"], true⟩ "7").1 (by decide)).1
  · exact ((c4_on_game_stop false ⟨["9"], true⟩ "7").1 (by decide)).2
  · exact (c4_on_game_stop false ⟨["7"], true⟩ "7").2 (by decide)

/-- C9: in the JSON game list, a playtime of 2.5 hours renders as the
string `"2:30:00"` and an absent `lastplayed` renders as `null`
(`playtime` and `lastplayed` are each a string or `null` by the shape of
`JsonGame`). -/
theorem c9_print_game_json (fmt : Int → String) (g : DBGameRow)
    (hp : g.playtime = some (mkRat 5 2)) (hl : g.lastplayed = none) :
    (print_game_json_entry fmt g).playtime = some "2:30:00" ∧
    (print_game_json_entry fmt g).lastplayed = none := by
  refine ⟨?_, ?_⟩
  · dsimp only [print_game_json_entry]
    rw [hp]
    decide
  · dsimp only [print_game_json_entry]
    rw [hl]

/-- C9 witness. -/
theorem c9_witness :
    (print_game_json_entry (fun _ => "")
        ⟨1, "quake", "Quake", none, none, none, none, none, some (mkRat 5 2),
          none⟩).playtime = some "2:30:00" ∧
    (print_game_json_entry (fun _ => "")
        ⟨1, "quake", "Quake", none, none, none, none, none, some (mkRat 5 2),
          none⟩).lastplayed = none :=
  c9_print_game_json (fun _ => "")
    ⟨1, "quake", "Quake", none, none, none, none, none, some (mkRat 5 2),
      none⟩ rfl rfl

/-- C7: an invocation carrying any informational short-circuit flag
(`version`, `list-games`, `list-steam-games`, `list-steam-folders`,
`exec`, `submit-issue`) performs no game-identity database fetch. -/
theorem c7_short_circuit_no_fetch (env : Env) (opts : Options) (rib0 : Bool)
    (h : hasShortCircuitFlag opts = true) :
    ((do_command_line env opts rib0).events).filter Event.isFetch = [] := by
  unfold do_command_line
  by_cases h1 : opts.version = true
  · simp [h1]
  by_cases h2 : opts.list_games = true
  · simp [h1, h2, Event.isFetch]
  by_cases h3 : opts.list_steam_games = true
  · simp [h1, h2, h3]
  by_cases h4 : opts.list_steam_folders = true
  · simp [h1, h2, h3, h4]
  by_cases h5 : opts.exec.isSome = true
  · simp [h1, h2, h3, h4, h5]
  by_cases h6 : opts.submit_issue = true
  · simp [h1, h2, h3, h4, h5, h6]
  exfalso
  simp [hasShortCircuitFlag, h1, h2, h3, h4, h5, h6] at h

/-- C7 witness. -/
theorem c7_witness :
    ((do_command_line sampleEnv versionOpts false).events).filter
      Event.isFetch = [] :=
  c7_short_circuit_no_fetch sampleEnv versionOpts false rfl

/-- C3: with no live entry for the derived key, the first `show_window`
call constructs an instance; a second call while that instance is live
returns the same handle and leaves the registry (and the list of
constructed instances) untouched; after the destruction callback removes
the entry, a further call constructs a fresh instance with a new
handle. -/
theorem c3_window_singleton (st0 : WinState) (wc : String) (k : WindowKwargs)
    (habs : st0.app_windows.lookup (wc ++ get_window_key k) = none) :
    (show_window st0 wc k).2 = st0.next_handle ∧
    (show_window st0 wc k).1.constructed
      = st0.constructed ++ [st0.next_handle] ∧
    show_window (show_window st0 wc k).1 wc k
      = ((show_window st0 wc k).1, (show_window st0 wc k).2) ∧
    (show_window
        (on_app_window_destroyed (show_window st0 wc k).1 wc
          (get_window_key k)).1 wc k).1.constructed
      = (show_window st0 wc k).1.constructed ++ [st0.next_handle + 1] ∧
    (show_window
        (on_app_window_destroyed (show_window st0 wc k).1 wc
          (get_window_key k)).1 wc k).2 ≠ (show_window st0 wc k).2 := by
  have e1 : show_window st0 wc k
      = (⟨(wc ++ get_window_key k, st0.next_handle) :: st0.app_windows,
            st0.next_handle + 1, st0.constructed ++ [st0.next_handle]⟩,
          st0.next_handle) := by
    unfold show_window
    rw [habs]
  have e2 : show_window (show_window st0 wc k).1 wc k
      = ((show_window st0 wc k).1, st0.next_handle) := by
    rw [e1]
    unfold show_window
    simp [List.lookup]
  have e3 : on_app_window_destroyed (show_window st0 wc k).1 wc
        (get_window_key k)
      = (⟨((wc ++ get_window_key k, st0.next_handle)
              :: st0.app_windows).filter
            (fun p => !(p.1 == wc ++ get_window_key k)),
            st0.next_handle + 1, st0.constructed ++ [st0.next_handle]⟩,
          false) := by
    rw [e1]
    unfold on_app_window_destroyed
    simp [List.lookup]
  have e5 : show_window
        (on_app_window_destroyed (show_window st0 wc k).1 wc
          (get_window_key k)).1 wc k
      = (⟨(wc ++ get_window_key k, st0.next_handle + 1)
            :: ((wc ++ get_window_key k, st0.next_handle)
                  :: st0.app_windows).filter
                (fun p => !(p.1 == wc ++ get_window_key k)),
            st0.next_handle + 2,
            (st0.constructed ++ [st0.next_handle]) ++ [st0.next_handle + 1]⟩,
          st0.next_handle + 1) := by
    rw [e3]
    unfold show_window
    rw [lookup_filter_key_none]
  refine ⟨by rw [e1], by rw [e1], ?_, ?_, ?_⟩
  · rw [e2, e1]
  · rw [e5, e1]
  · rw [e5, e1]
    simp

/-- C3 witness. -/
theorem c3_witness :
    (show_window ⟨[], 0, []⟩ "InstallerWindow"
      ⟨some "appid1", none, [], none⟩).2 = 0 ∧
    (show_window ⟨[], 0, []⟩ "InstallerWindow"
      ⟨some "appid1", none, [], none⟩).1.constructed = [] ++ [0] ∧
    show_window
        (show_window ⟨[], 0, []⟩ "InstallerWindow"
          ⟨some "appid1", none, [], none⟩).1 "InstallerWindow"
        ⟨some "appid1", none, [], none⟩
      = ((show_window ⟨[], 0, []⟩ "InstallerWindow"
            ⟨some "appid1", none, [], none⟩).1,
          (show_window ⟨[], 0, []⟩ "InstallerWindow"
            ⟨some "appid1", none, [], none⟩).2) ∧
    (show_window
        (on_app_window_destroyed
          (show_window ⟨[], 0, []⟩ "InstallerWindow"
            ⟨some "appid1", none, [], none⟩).1 "InstallerWindow"
          (get_window_key ⟨some "appid1", none, [], none⟩)).1
        "InstallerWindow" ⟨some "appid1", none, [], none⟩).1.constructed
      = (show_window ⟨[], 0, []⟩ "InstallerWindow"
          ⟨some "appid1", none, [], none⟩).1.constructed ++ [0 + 1] ∧
    (show_window
        (on_app_window_destroyed
          (show_window ⟨[], 0, []⟩ "InstallerWindow"
            ⟨some "appid1", none, [], none⟩).1 "InstallerWindow"
          (get_window_key ⟨some "appid1", none, [], none⟩)).1
        "InstallerWindow" ⟨some "appid1", none, [], none⟩).2
      ≠ (show_window ⟨[], 0, []⟩ "InstallerWindow"
          ⟨some "appid1", none, [], none⟩).2 :=
  c3_window_singleton ⟨[], 0, []⟩ "InstallerWindow"
    ⟨some "appid1", none, [], none⟩ rfl

/-- C5: with no positional URI argument the parser yields an installer
info whose five fields are all `None`; when the URI string fails to
parse, the invocation ends with the bad-URI outcome, whose exit code
is 1. -/
theorem c5_empty_and_bad_uri (env : Env) (opts : Options) (rib0 : Bool)
    (u : String) (hsc : hasShortCircuitFlag opts = false)
    (hu : opts.url = some u) (hp : env.parse_installer_url u = none) :
    (∀ parse : String → Option InstallerInfo,
        get_lutris_action parse none = some ⟨none, none, none, none, none⟩) ∧
    (do_command_line env opts rib0).outcome = Outcome.badUri ∧
    Outcome.exitCode Outcome.badUri = 1 := by
  refine ⟨fun parse => rfl, ?_, rfl⟩
  rw [do_command_line_eq_resolve env opts rib0 hsc]
  unfold do_command_line_resolve get_lutris_action
  rw [hu]
  dsimp only
  rw [hp]

/-- C5 witness. -/
theorem c5_witness :
    get_lutris_action (fun _ => none) none
      = some ⟨none, none, none, none, none⟩ ∧
    (do_command_line sampleEnv bogusUriOpts false).outcome
      = Outcome.badUri :=
  ⟨(c5_empty_and_bad_uri sampleEnv bogusUriOpts false "bogus" rfl rfl
      rfl).1 (fun _ => none),
    (c5_empty_and_bad_uri sampleEnv bogusUriOpts false "bogus" rfl rfl
      rfl).2.1⟩

/-- C1: with the reinstall flag set and no informational short-circuit
flag, every invocation that reaches a terminal action carries the action
`install` — overriding both the write-script action set by
`--output-script` and any action parsed from the URI — and the
write-script outcomes are unreachable. -/
theorem c1_reinstall_forces_install (env : Env) (opts : Options) (rib0 : Bool)
    (a : Option String) (hre : opts.reinstall = true)
    (hsc : hasShortCircuitFlag opts = false)
    (h : (do_command_line env opts rib0).outcome = Outcome.completed a ∨
      (do_command_line env opts rib0).outcome = Outcome.serviceHandled a) :
    a = some "install" ∧
    (do_command_line env opts rib0).outcome ≠ Outcome.wroteScript ∧
    (do_command_line env opts rib0).outcome ≠ Outcome.writeScriptNoGame := by
  rw [do_command_line_eq_resolve env opts rib0 hsc] at h ⊢
  unfold do_command_line_resolve at h ⊢
  cases hparse : get_lutris_action env.parse_installer_url opts.url with
  | none =>
    rw [hparse] at h
    simp at h
  | some info =>
    rw [hparse] at h
    dsimp only at h ⊢
    cases hrif : resolve_install_file env opts.install
        (if opts.output_script.isSome then some "write-script"
          else info.action) with
    | error e =>
      rw [hrif] at h
      dsimp only at h
      rcases resolve_install_file_error_cases env _ _ e hrif with he | he <;>
        subst he <;> simp at h
    | ok p =>
      obtain ⟨f, a2⟩ := p
      rw [hrif] at h
      dsimp only at h ⊢
      rcases command_line_after_files_reinstall env opts rib0 info f a2 hre
          with ho | ho <;> rw [ho] at h ⊢
      · rcases h with h | h
        · refine ⟨?_, by simp, by simp⟩
          injection h with h
          exact h.symm
        · simp at h
      · rcases h with h | h
        · simp at h
        · refine ⟨?_, by simp, by simp⟩
          injection h with h
          exact h.symm

/-- C1 witness. -/
theorem c1_witness :
    (some "install" : Option String) = some "install" ∧
    (do_command_line sampleEnv reinstallOpts false).outcome
      ≠ Outcome.wroteScript ∧
    (do_command_line sampleEnv reinstallOpts false).outcome
      ≠ Outcome.writeScriptNoGame :=
  c1_reinstall_forces_install sampleEnv reinstallOpts false (some "install")
    rfl rfl (Or.inl (by decide))

/-- C8: the game lookup runs only when a truthy game slug is present and
no truthy service is set; `rungameid` fetches by numeric id only,
`rungame` by slug only, `install` by slug and then installer slug, and an
unresolved action by id, then slug, then installer slug — the first
successful fetch winning. -/
theorem c8_lookup_fallback_order (fetch : String → String → Option DBGame)
    (s : String) (hs : s ≠ "") (svc : Option String)
    (hsvc : pyTruthyStr svc = false) :
    (∀ slug service action : Option String,
        ¬(pyTruthyStr slug = true ∧ pyTruthyStr service = false) →
        lookup_db_game fetch slug service action = ⟨none, false, []⟩) ∧
    lookup_db_game fetch (some s) svc (some "rungameid")
      = ⟨fetch s "id", true, [Event.fetchGame s "id"]⟩ ∧
    lookup_db_game fetch (some s) svc (some "rungame")
      = ⟨fetch s "slug", true, [Event.fetchGame s "slug"]⟩ ∧
    (lookup_db_game fetch (some s) svc (some "install")).db_game
      = (fetch s "slug").orElse (fun _ => fetch s "installer_slug") ∧
    (lookup_db_game fetch (some s) svc none).db_game
      = ((fetch s "id").orElse (fun _ =>
          (fetch s "slug").orElse (fun _ => fetch s "installer_slug"))) := by
  have hts : pyTruthyStr (some s) = true := by simp [pyTruthyStr, hs]
  refine ⟨?_, ?_, ?_, ?_, ?_⟩
  · intro slug service action hno
    have hguard : (pyTruthyStr slug && !pyTruthyStr service) = false := by
      cases h1 : pyTruthyStr slug
      · simp
      · cases h2 : pyTruthyStr service
        · exact absurd ⟨h1, h2⟩ hno
        · simp [h2]
    unfold lookup_db_game
    rw [hguard]
    simp
  · unfold lookup_db_game
    simp [hts, hsvc]
  · unfold lookup_db_game
    simp [hts, hsvc]
  · unfold lookup_db_game
    simp only [hts, hsvc, Bool.not_false, Bool.and_self, if_true,
      Option.getD_some]
    cases hfs : fetch s "slug" <;> simp [hfs, Option.orElse]
  · unfold lookup_db_game
    simp only [hts, hsvc, Bool.not_false, Bool.and_self, if_true,
      Option.getD_some]
    cases hfi : fetch s "id"
    · cases hfs : fetch s "slug" <;> simp [hfi, hfs, Option.orElse]
    · simp [hfi, Option.orElse]

/-- C8 witness. -/
theorem c8_witness :
    lookup_db_game (fun _ _ => none) (some "quake") none (some "rungameid")
      = ⟨none, true, [Event.fetchGame "quake" "id"]⟩ ∧
    (lookup_db_game (fun _ _ => none) (some "quake") none none).db_game
      = none :=
  ⟨(c8_lookup_fallback_order (fun _ _ => none) "quake" (by decide) none
      rfl).2.1,
    (c8_lookup_fallback_order (fun _ _ => none) "quake" (by decide) none
      rfl).2.2.2.2⟩

/-- C6: an invocation resolving a game through a `rungameid` or `rungame`
URI (`field` is the database field the corresponding branch fetches by:
numeric id for `rungameid`, slug for `rungame`) performs exactly one
activation, which does not present the main window and resets the
background flag, so that a following activation presents again
(`do_activate false = (true, false)`). -/
theorem c6_run_uri_background_once (env : Env) (opts : Options)
    (u : String) (info : InstallerInfo) (g : DBGame) (field : String)
    (hsc : hasShortCircuitFlag opts = false)
    (hu : opts.url = some u)
    (hp : env.parse_installer_url u = some info)
    (ha : (info.action = some "rungameid" ∧ field = "id") ∨
      (info.action = some "rungame" ∧ field = "slug"))
    (hslug : pyTruthyStr info.game_slug = true)
    (hsvc : pyTruthyStr info.service = false)
    (hos : opts.output_script = none)
    (hin : opts.install = none)
    (hdb : env.get_game_by_field (info.game_slug.getD "") field = some g) :
    (lookup_db_game env.get_game_by_field info.game_slug info.service
      info.action).db_game = some g ∧
    ((do_command_line env opts false).events).count (Event.activate false)
      = 1 ∧
    Event.activate true ∉ (do_command_line env opts false).events ∧
    (do_command_line env opts false).run_in_background = false ∧
    do_activate false = (true, false) := by
  rcases ha with ⟨ha, rfl⟩ | ⟨ha, rfl⟩
  · have hred : do_command_line env opts false
        = command_line_after_files env opts false info none
            (some "rungameid") := by
      rw [do_command_line_eq_resolve env opts false hsc,
        do_command_line_resolve_no_install env opts false info u hu hp hos
          hin, ha]
    have hrib := lookup_db_game_rib_set env.get_game_by_field info.game_slug
      info.service (some "rungameid") hslug hsvc (Or.inl rfl)
    have hns : (if opts.reinstall then some "install"
        else (some "rungameid" : Option String)) ≠ some "write-script" := by
      cases opts.reinstall <;> simp
    have hmain := command_line_after_files_activate env opts info none
      (some "rungameid") hns hsvc hrib
    refine ⟨?_, ?_, ?_, ?_, rfl⟩
    · rw [ha]
      unfold lookup_db_game
      simp [hslug, hsvc, hdb]
    · rw [hred]
      exact hmain.1
    · rw [hred]
      exact hmain.2.1
    · rw [hred]
      exact hmain.2.2
  · have hred : do_command_line env opts false
        = command_line_after_files env opts false info none
            (some "rungame") := by
      rw [do_command_line_eq_resolve env opts false hsc,
        do_command_line_resolve_no_install env opts false info u hu hp hos
          hin, ha]
    have hrib := lookup_db_game_rib_set env.get_game_by_field info.game_slug
      info.service (some "rungame") hslug hsvc (Or.inr (Or.inl rfl))
    have hns : (if opts.reinstall then some "install"
        else (some "rungame" : Option String)) ≠ some "write-script" := by
      cases opts.reinstall <;> simp
    have hmain := command_line_after_files_activate env opts info none
      (some "rungame") hns hsvc hrib
    refine ⟨?_, ?_, ?_, ?_, rfl⟩
    · rw [ha]
      unfold lookup_db_game
      simp [hslug, hsvc, hdb]
    · rw [hred]
      exact hmain.1
    · rw [hred]
      exact hmain.2.1
    · rw [hred]
      exact hmain.2.2

/-- C6 witness: one `rungameid` invocation and one `rungame`
invocation. -/
theorem c6_witness :
    (((do_command_line rungameidEnv rungameidOpts false).events).count
        (Event.activate false) = 1 ∧
      (do_command_line rungameidEnv rungameidOpts false).run_in_background
        = false) ∧
    (((do_command_line rungameEnv rungameOpts false).events).count
        (Event.activate false) = 1 ∧
      (do_command_line rungameEnv rungameOpts false).run_in_background
        = false) :=
  ⟨⟨(c6_run_uri_background_once rungameidEnv rungameidOpts
        "lutris:rungameid/42" ⟨some "42", none, some "rungameid", none, none⟩
        ⟨some 7, "g", true⟩ "id" rfl rfl (by decide) (Or.inl ⟨rfl, rfl⟩)
        (by decide) rfl rfl rfl (by decide)).2.1,
      (c6_run_uri_background_once rungameidEnv rungameidOpts
        "lutris:rungameid/42" ⟨some "42", none, some "rungameid", none, none⟩
        ⟨some 7, "g", true⟩ "id" rfl rfl (by decide) (Or.inl ⟨rfl, rfl⟩)
        (by decide) rfl rfl rfl (by decide)).2.2.2.1⟩,
    ⟨(c6_run_uri_background_once rungameEnv rungameOpts
        "lutris:rungame/quake2"
        ⟨some "quake2", none, some "rungame", none, none⟩
        ⟨some 9, "g2", true⟩ "slug" rfl rfl (by decide) (Or.inr ⟨rfl, rfl⟩)
        (by decide) rfl rfl rfl (by decide)).2.1,
      (c6_run_uri_background_once rungameEnv rungameOpts
        "lutris:rungame/quake2"
        ⟨some "quake2", none, some "rungame", none, none⟩
        ⟨some 9, "g2", true⟩ "slug" rfl rfl (by decide) (Or.inr ⟨rfl, rfl⟩)
        (by decide) rfl rfl rfl (by decide)).2.2.2.1⟩⟩

/-- C10: an invocation whose resolved action is `install` with a truthy
game slug and no service also sets the run-in-background flag in its
lookup branch, so the activation triggered by that invocation does not
present the main window, and the flag is reset afterwards. -/
theorem c10_install_sets_background (env : Env) (opts : Options)
    (u : String) (info : InstallerInfo)
    (hsc : hasShortCircuitFlag opts = false)
    (hu : opts.url = some u)
    (hp : env.parse_installer_url u = some info)
    (ha : info.action = some "install")
    (hslug : pyTruthyStr info.game_slug = true)
    (hsvc : pyTruthyStr info.service = false)
    (hos : opts.output_script = none)
    (hin : opts.install = none) :
    (lookup_db_game env.get_game_by_field info.game_slug info.service
      (some "install")).rib_set = true ∧
    Event.activate false ∈ (do_command_line env opts false).events ∧
    Event.activate true ∉ (do_command_line env opts false).events ∧
    (do_command_line env opts false).run_in_background = false := by
  have hred : do_command_line env opts false
      = command_line_after_files env opts false info none
          (some "install") := by
    rw [do_command_line_eq_resolve env opts false hsc,
      do_command_line_resolve_no_install env opts false info u hu hp hos hin,
      ha]
  have hrib := lookup_db_game_rib_set env.get_game_by_field info.game_slug
    info.service (some "install") hslug hsvc (Or.inr (Or.inr rfl))
  have hns : (if opts.reinstall then some "install"
      else (some "install" : Option String)) ≠ some "write-script" := by
    cases opts.reinstall <;> simp
  have hmain := command_line_after_files_activate env opts info none
    (some "install") hns hsvc hrib
  refine ⟨hrib, ?_, ?_, ?_⟩
  · rw [hred]
    have hpos : 0 < ((command_line_after_files env opts false info none
        (some "install")).events).count (Event.activate false) := by
      rw [hmain.1]
      exact Nat.one_pos
    exact List.count_pos_iff.mp hpos
  · rw [hred]
    exact hmain.2.1
  · rw [hred]
    exact hmain.2.2

/-- C10 witness. -/
theorem c10_witness :
    (lookup_db_game installEnv.get_game_by_field (some "quake") none
      (some "install")).rib_set = true ∧
    (do_command_line installEnv installUriOpts false).run_in_background
      = false :=
  ⟨(c10_install_sets_background installEnv installUriOpts
      "lutris:install/quake" ⟨some "quake", none, some "install", none, none⟩
      rfl rfl (by decide) rfl (by decide) rfl rfl rfl).1,
    (c10_install_sets_background installEnv installUriOpts
      "lutris:install/quake" ⟨some "quake", none, some "install", none, none⟩
      rfl rfl (by decide) rfl (by decide) rfl rfl rfl).2.2.2⟩
